import Mathlib

set_option autoImplicit false

namespace CleanAuth

/-! Shallow embedding of the login/authentication core of the repository.
    JavaScript optional values (undefined and null) are modelled with Option,
    a collaborator object with Option-wrapped structures, a possibly missing
    method with an Option-wrapped function field, and a call that may throw
    with Except JsError.  String literals of the source are bound to named
    constants below. -/

def emailField : String := "email"
def passwordField : String := "password"
def anyId : String := "any_id"
def hashedPassword : String := "hashed_password"
def anyToken : String := "any_token"
def validToken : String := "valid_token"
def validEmail : String := "valid_email@mail.com"
def validPassword : String := "valid_password"
def anyEmail : String := "any_email@mail.com"
def anyPassword : String := "any_password"
def missingParamPrefix : String := "Missing param: "
def invalidParamPrefix : String := "Invalid param: "
def unauthorizedMessage : String := "Unauthorized"
def serverErrorMessage : String := "Internal error"
def genericErrorMessage : String := "Error"

/-- Modelled from the spec: the error taxonomy of section 4.1.  The concrete
    error class files (missign-param-error.js and friends) are absent from the
    sources; only src/src/presentation/errors/index.js, which re-exports the
    four classes, is present.  The extra constructor generic stands for a plain
    thrown Error (as in the throwing test doubles of login-router.spec.js). -/
inductive JsError where
  | missingParam (param : String)
  | invalidParam (param : String)
  | unauthorized
  | server
  | generic
  deriving DecidableEq

/-- Modelled from the spec: each error kind carries a human-readable message
    referencing the offending field where applicable (section 4.1). -/
def JsError.message : JsError → String
  | .missingParam p => missingParamPrefix ++ p
  | .invalidParam p => invalidParamPrefix ++ p
  | .unauthorized => unauthorizedMessage
  | .server => serverErrorMessage
  | .generic => genericErrorMessage

/-- JavaScript truthiness of an optional string: undefined, null and the empty
    string are falsy, every other string is truthy. -/
def truthy : Option String → Bool
  | none => false
  | some s => !s.isEmpty

/-- User record as pinned by the repository test fixtures: an id and a hashed
    password (src/unnamed/part_000 lines 21-24). -/
structure User where
  id : String
  password : String
  deriving DecidableEq

/-- Body of an HTTP response: either the success payload carrying the access
    token or an error value. -/
inductive HttpBody where
  | token (accessToken : String)
  | err (e : JsError)
  deriving DecidableEq

/-- HTTP response envelope.  The body is optional because the source helper
    HttpResponse.serverError builds a response object with no body field. -/
structure HttpResponse where
  statusCode : Nat
  body : Option HttpBody
  deriving DecidableEq

/-- Translated from src/src/presentation/helpers/http-response.js lines 4-9:
    badRequest takes a parameter name and returns statusCode 400 with a
    MissingParamError for that name as the body. -/
def HttpResponse.badRequest (paramName : String) : HttpResponse :=
  { statusCode := 400, body := some (.err (.missingParam paramName)) }

/-- Translated from src/src/presentation/helpers/http-response.js lines 10-14:
    serverError returns an object holding only statusCode 500; no body field
    is present. -/
def HttpResponse.serverError : HttpResponse :=
  { statusCode := 500, body := none }

/-- Boolean classifier: does the response body hold a MissingParamError? -/
def bodyIsMissingParam (r : HttpResponse) : Bool :=
  match r.body with
  | some (.err (.missingParam _)) => true
  | _ => false

/-- HTTP request body with optional email and password fields. -/
structure HttpRequestBody where
  email : Option String
  password : Option String

/-- HTTP request object with an optional body. -/
structure HttpRequest where
  body : Option HttpRequestBody

/-- Collaborator interface: user repository keyed by email; the load method
    may be absent (dependency-shape checking, spec section 4.2). -/
structure LoadUserByEmailRepository where
  load : Option (String → Except JsError (Option User))

/-- Collaborator interface: password comparison capability. -/
structure Encrypter where
  compare : Option (String → String → Except JsError Bool)

/-- Collaborator interface: access-token generation capability. -/
structure TokenGenerator where
  generate : Option (String → Except JsError String)

/-- Collaborator interface: persists the freshly generated access token. -/
structure UpdateAccessTokenRepository where
  update : Option (String → String → Except JsError Unit)

/-- Observable collaborator invocations of one AuthUseCase.auth call. -/
inductive CallEvent where
  | load (email : String)
  | compare (password hashedPassword : String)
  | generate (userId : String)
  | update (userId accessToken : String)
  deriving DecidableEq

/-- AuthUseCase with its four injected collaborators, each possibly absent
    (src/unnamed/part_000 constructs it with three, leaving the fourth
    undefined). -/
structure AuthUseCase where
  loadUserByEmailRepository : Option LoadUserByEmailRepository
  encrypter : Option Encrypter
  tokenGenerator : Option TokenGenerator
  updateAccessTokenRepository : Option UpdateAccessTokenRepository

/-- Dependency-shape check for an optional collaborator holding a load method. -/
def loadRepoDepOk : Option LoadUserByEmailRepository → Bool
  | some repo => repo.load.isSome
  | none => false

/-- Dependency-shape check for an optional encrypter collaborator. -/
def encrypterDepOk : Option Encrypter → Bool
  | some enc => enc.compare.isSome
  | none => false

/-- Dependency-shape check for an optional token generator collaborator. -/
def tokenGeneratorDepOk : Option TokenGenerator → Bool
  | some tg => tg.generate.isSome
  | none => false

/-- Dependency-shape check for an optional update-token repository. -/
def updateRepoDepOk : Option UpdateAccessTokenRepository → Bool
  | some ur => ur.update.isSome
  | none => false

/-- Modelled from the spec: auth-usecase.js is absent from the sources (only
    its test file src/unnamed/part_000 is present), so auth follows section
    4.3: check email then password (throwing MissingParamError), guard each
    collaborator immediately before invoking it (section 4.2, failing with a
    generic server error), load the user, return null when no user is found,
    compare the password, return null when the comparison is false, generate
    the token, persist it via updateAccessTokenRepository.update, and return
    the token.  Collaborator exceptions propagate to the caller.  The first
    component records the collaborator invocations in order. -/
def AuthUseCase.auth (a : AuthUseCase) (email password : Option String) :
    List CallEvent × Except JsError (Option String) :=
  if !truthy email then ([], .error (.missingParam emailField))
  else if !truthy password then ([], .error (.missingParam passwordField))
  else
    match a.loadUserByEmailRepository with
    | none => ([], .error .server)
    | some repo =>
      match repo.load with
      | none => ([], .error .server)
      | some loadFn =>
        match loadFn (email.getD ("")) with
        | .error err => ([.load (email.getD (""))], .error err)
        | .ok none => ([.load (email.getD (""))], .ok none)
        | .ok (some user) =>
          match a.encrypter with
          | none => ([.load (email.getD (""))], .error .server)
          | some enc =>
            match enc.compare with
            | none => ([.load (email.getD (""))], .error .server)
            | some compareFn =>
              match compareFn (password.getD ("")) user.password with
              | .error err =>
                ([.load (email.getD ("")), .compare (password.getD ("")) user.password], .error err)
              | .ok false =>
                ([.load (email.getD ("")), .compare (password.getD ("")) user.password], .ok none)
              | .ok true =>
                match a.tokenGenerator with
                | none =>
                  ([.load (email.getD ("")), .compare (password.getD ("")) user.password], .error .server)
                | some tg =>
                  match tg.generate with
                  | none =>
                    ([.load (email.getD ("")), .compare (password.getD ("")) user.password], .error .server)
                  | some generateFn =>
                    match generateFn user.id with
                    | .error err =>
                      ([.load (email.getD ("")), .compare (password.getD ("")) user.password,
                        .generate user.id], .error err)
                    | .ok accessToken =>
                      match a.updateAccessTokenRepository with
                      | none =>
                        ([.load (email.getD ("")), .compare (password.getD ("")) user.password,
                          .generate user.id], .error .server)
                      | some ur =>
                        match ur.update with
                        | none =>
                          ([.load (email.getD ("")), .compare (password.getD ("")) user.password,
                            .generate user.id], .error .server)
                        | some updateFn =>
                          match updateFn user.id accessToken with
                          | .error err =>
                            ([.load (email.getD ("")), .compare (password.getD ("")) user.password,
                              .generate user.id, .update user.id accessToken], .error err)
                          | .ok _ =>
                            ([.load (email.getD ("")), .compare (password.getD ("")) user.password,
                              .generate user.id, .update user.id accessToken], .ok (some accessToken))

/-- Helper building a fully wired AuthUseCase from its four capability
    functions. -/
def mkAuthUseCase (loadFn : String → Except JsError (Option User))
    (compareFn : String → String → Except JsError Bool)
    (generateFn : String → Except JsError String)
    (updateFn : String → String → Except JsError Unit) : AuthUseCase :=
  ⟨some ⟨some loadFn⟩, some ⟨some compareFn⟩, some ⟨some generateFn⟩, some ⟨some updateFn⟩⟩

/-- Collaborator interface consumed by the router: the use case exposing auth. -/
structure AuthUseCaseI where
  auth : Option (String → String → Except JsError (Option String))

/-- Collaborator interface consumed by the router: the email validator. -/
structure EmailValidator where
  isValid : Option (String → Except JsError Bool)

/-- LoginRouter with its two injected collaborators, each possibly absent. -/
structure LoginRouter where
  authUseCase : Option AuthUseCaseI
  emailValidator : Option EmailValidator

/-- Dependency-shape check for the optional use-case collaborator. -/
def authUseCaseDepOk : Option AuthUseCaseI → Bool
  | some au => au.auth.isSome
  | none => false

/-- Dependency-shape check for the optional email-validator collaborator. -/
def emailValidatorDepOk : Option EmailValidator → Bool
  | some ev => ev.isValid.isSome
  | none => false

/-- Modelled from the spec: the router responds 500 ServerError carrying the
    error as body (sections 3 and 4.4, and the expectations of
    login-router.spec.js); note this body diverges from the source helper
    HttpResponse.serverError, which carries no body. -/
def serverErrorResponse : HttpResponse :=
  { statusCode := 500, body := some (.err .server) }

/-- Modelled from the spec: 401 with the UnauthorizedError as body. -/
def unauthorizedResponse : HttpResponse :=
  { statusCode := 401, body := some (.err .unauthorized) }

/-- Modelled from the spec: 400 with an InvalidParamError as body. -/
def invalidParamResponse (paramName : String) : HttpResponse :=
  { statusCode := 400, body := some (.err (.invalidParam paramName)) }

/-- Modelled from the spec: 200 with the access token as body payload. -/
def okResponse (accessToken : String) : HttpResponse :=
  { statusCode := 200, body := some (.token accessToken) }

/-- Modelled from the spec: login-router.js is absent from the sources (only
    login-router.spec.js is present), so route follows section 4.4: absent
    request or body gives 500; missing email or password gives 400 via the
    source helper HttpResponse.badRequest; then the dependency guard over both
    collaborators (violation gives 500); then emailValidator.isValid (false
    gives 400 InvalidParamError); then authUseCase.auth, whose thrown errors
    become 500, falsy token becomes 401 and a truthy token becomes 200. -/
def LoginRouter.route (r : LoginRouter) (httpRequest : Option HttpRequest) : HttpResponse :=
  match httpRequest with
  | none => serverErrorResponse
  | some hr =>
    match hr.body with
    | none => serverErrorResponse
    | some b =>
      if !truthy b.email then HttpResponse.badRequest emailField
      else if !truthy b.password then HttpResponse.badRequest passwordField
      else
        match r.authUseCase, r.emailValidator with
        | some au, some ev =>
          match au.auth, ev.isValid with
          | some authFn, some isValidFn =>
            match isValidFn (b.email.getD ("")) with
            | .error _ => serverErrorResponse
            | .ok false => invalidParamResponse emailField
            | .ok true =>
              match authFn (b.email.getD ("")) (b.password.getD ("")) with
              | .error _ => serverErrorResponse
              | .ok none => unauthorizedResponse
              | .ok (some accessToken) =>
                if accessToken.isEmpty then unauthorizedResponse
                else okResponse accessToken
          | _, _ => serverErrorResponse
        | _, _ => serverErrorResponse

/-- View of a full AuthUseCase as the collaborator interface injected into the
    router, dropping the recorded trace. -/
def AuthUseCase.asAuthUseCaseI (a : AuthUseCase) : AuthUseCaseI :=
  ⟨some fun e p => (a.auth (some e) (some p)).2⟩

/-- Translated from src/unnamed/part_000 lines 13-26: the repository test
    double resolves every load with the fixed user record. -/
def loadSpyFn : String → Except JsError (Option User) :=
  fun _ => .ok (some { id := anyId, password := hashedPassword })

/-- Translated from src/unnamed/part_000 lines 13-26. -/
def loadUserByEmailRepositorySpy : LoadUserByEmailRepository :=
  ⟨some loadSpyFn⟩

/-- Translated from src/unnamed/part_000 lines 28-39: the encrypter test
    double resolves true by default. -/
def compareSpyFn : String → String → Except JsError Bool :=
  fun _ _ => .ok true

/-- Translated from src/unnamed/part_000 lines 28-39. -/
def encrypterSpy : Encrypter :=
  ⟨some compareSpyFn⟩

/-- Translated from src/unnamed/part_000 lines 41-51: the token generator test
    double resolves the fixed token. -/
def generateSpyFn : String → Except JsError String :=
  fun _ => .ok anyToken

/-- Translated from src/unnamed/part_000 lines 41-51. -/
def tokenGeneratorSpy : TokenGenerator :=
  ⟨some generateSpyFn⟩

/-- Translated from src/unnamed/part_000 lines 5-11 (makeSut): the AuthUseCase
    under test is constructed with exactly three collaborators; no
    updateAccessTokenRepository is provided, so that field is undefined. -/
def makeSutAuth : AuthUseCase :=
  { loadUserByEmailRepository := some loadUserByEmailRepositorySpy
    encrypter := some encrypterSpy
    tokenGenerator := some tokenGeneratorSpy
    updateAccessTokenRepository := none }

/-- Translated from src/src/presentation/routers/login-router.spec.js lines
    34-44: the email validator test double returns true by default. -/
def emailValidatorSpy : EmailValidator :=
  ⟨some fun _ => .ok true⟩

/-- Translated from src/src/presentation/routers/login-router.spec.js lines
    17-32: the use-case test double resolves the fixed valid token. -/
def authUseCaseSpy : AuthUseCaseI :=
  ⟨some fun _ _ => .ok (some validToken)⟩

/-- Translated from src/src/presentation/routers/login-router.spec.js lines
    6-15 (makeSut): router wired with the two default test doubles. -/
def lrSut : LoginRouter :=
  ⟨some authUseCaseSpy, some emailValidatorSpy⟩

/-- Stateful use-case collaborator: each call returns its result together with
    the next collaborator state (the test doubles of login-router.spec.js
    mutate recorded fields on every call). -/
structure StAuthUseCaseI (σ : Type) where
  auth : Option (σ → String → String → Except JsError (Option String) × σ)

/-- Stateful email-validator collaborator. -/
structure StEmailValidator (σ : Type) where
  isValid : Option (σ → String → Except JsError Bool × σ)

/-- LoginRouter over stateful collaborators sharing the state type. -/
structure StLoginRouter (σ : Type) where
  authUseCase : Option (StAuthUseCaseI σ)
  emailValidator : Option (StEmailValidator σ)

/-- Modelled from the spec: the stateful variant of LoginRouter.route,
    identical to route per section 4.4 but threading the collaborator state
    through the isValid and auth calls in program order. -/
def StLoginRouter.route {σ : Type} (r : StLoginRouter σ) (s : σ)
    (httpRequest : Option HttpRequest) : HttpResponse × σ :=
  match httpRequest with
  | none => (serverErrorResponse, s)
  | some hr =>
    match hr.body with
    | none => (serverErrorResponse, s)
    | some b =>
      if !truthy b.email then (HttpResponse.badRequest emailField, s)
      else if !truthy b.password then (HttpResponse.badRequest passwordField, s)
      else
        match r.authUseCase, r.emailValidator with
        | some au, some ev =>
          match au.auth, ev.isValid with
          | some authFn, some isValidFn =>
            match isValidFn s (b.email.getD ("")) with
            | (.error _, s1) => (serverErrorResponse, s1)
            | (.ok false, s1) => (invalidParamResponse emailField, s1)
            | (.ok true, s1) =>
              match authFn s1 (b.email.getD ("")) (b.password.getD ("")) with
              | (.error _, s2) => (serverErrorResponse, s2)
              | (.ok none, s2) => (unauthorizedResponse, s2)
              | (.ok (some accessToken), s2) =>
                if accessToken.isEmpty then (unauthorizedResponse, s2)
                else (okResponse accessToken, s2)
          | _, _ => (serverErrorResponse, s)
        | _, _ => (serverErrorResponse, s)

/-- A stateful collaborator call is deterministic when the value it returns
    does not depend on the mutable spy state it is given. -/
def stateIndep1 {σ α β : Type} (f : σ → α → β × σ) : Prop :=
  ∀ s t a, (f s a).1 = (f t a).1

/-- Determinism of a two-argument stateful collaborator call. -/
def stateIndep2 {σ α β γ : Type} (f : σ → α → β → γ × σ) : Prop :=
  ∀ s t a b, (f s a b).1 = (f t a b).1

/-- Recorded fields mutated by the test doubles of login-router.spec.js:
    the use-case records email and password, the validator records email. -/
structure SpyRecord where
  authEmail : Option String
  authPassword : Option String
  validatorEmail : Option String
  deriving DecidableEq

/-- Translated from src/src/presentation/routers/login-router.spec.js lines
    17-32, keeping the mutation of the recorded fields: auth stores email and
    password on the state and resolves the fixed valid token. -/
def stAuthSpyFn : SpyRecord → String → String → Except JsError (Option String) × SpyRecord :=
  fun st e p => (.ok (some validToken), { st with authEmail := some e, authPassword := some p })

/-- Translated from src/src/presentation/routers/login-router.spec.js lines
    34-44, keeping the mutation of the recorded field: isValid stores the
    email on the state and returns true. -/
def stValidSpyFn : SpyRecord → String → Except JsError Bool × SpyRecord :=
  fun st e => (.ok true, { st with validatorEmail := some e })

/-- Stateful router fixture mirroring makeSut of login-router.spec.js. -/
def stLrSut : StLoginRouter SpyRecord :=
  ⟨some ⟨some stAuthSpyFn⟩, some ⟨some stValidSpyFn⟩⟩

/-- Initial spy state: nothing recorded yet. -/
def spyRecord0 : SpyRecord :=
  { authEmail := none, authPassword := none, validatorEmail := none }

/-- Valid login request used across the repository tests. -/
def validRequest : HttpRequest :=
  { body := some { email := some validEmail, password := some validPassword } }

def invalidEmail : String := "invalid_email@mail.com"
def invalidPassword : String := "invalid_password"

/-- The fixed user record of the repository test fixtures. -/
def anyUser : User := { id := anyId, password := hashedPassword }

/-- Repository double resolving no user, as in the invalid-email test of
    src/unnamed/part_000 lines 87-92. -/
def loadNotFoundFn : String → Except JsError (Option User) :=
  fun _ => .ok none

/-- Encrypter double resolving false, as in the invalid-password test of
    src/unnamed/part_000 lines 94-99. -/
def compareFalseFn : String → String → Except JsError Bool :=
  fun _ _ => .ok false

/-- Validator double returning true on every email. -/
def isValidTrueFn : String → Except JsError Bool :=
  fun _ => .ok true

/-- Update repository double resolving successfully. -/
def updateOkFn : String → String → Except JsError Unit :=
  fun _ _ => .ok ()

/-- AuthUseCase fixture for the user-not-found scenario. -/
def authNotFound : AuthUseCase :=
  ⟨some ⟨some loadNotFoundFn⟩, some encrypterSpy, some tokenGeneratorSpy, none⟩

/-- AuthUseCase fixture for the wrong-password scenario. -/
def authWrongPassword : AuthUseCase :=
  ⟨some ⟨some loadSpyFn⟩, some ⟨some compareFalseFn⟩, some tokenGeneratorSpy, none⟩

/-! Theorems. -/

@[simp] theorem truthy_none : truthy none = false := rfl

@[simp] theorem truthy_some (s : String) : truthy (some s) = !s.isEmpty := rfl

/-- Every route outcome is one of the five response shapes of section 4.4. -/
theorem LoginRouter.route_cases (r : LoginRouter) (req : Option HttpRequest) :
    r.route req = serverErrorResponse ∨
    r.route req = HttpResponse.badRequest emailField ∨
    r.route req = HttpResponse.badRequest passwordField ∨
    r.route req = invalidParamResponse emailField ∨
    r.route req = unauthorizedResponse ∨
    ∃ t, t.isEmpty = false ∧ r.route req = okResponse t := by
  unfold LoginRouter.route
  repeat' split
  all_goals
    first
    | exact Or.inl rfl
    | exact Or.inr (Or.inl rfl)
    | exact Or.inr (Or.inr (Or.inl rfl))
    | exact Or.inr (Or.inr (Or.inr (Or.inl rfl)))
    | exact Or.inr (Or.inr (Or.inr (Or.inr (Or.inl rfl))))
    | (rename_i h
       exact Or.inr (Or.inr (Or.inr (Or.inr (Or.inr ⟨_, by simpa using h, rfl⟩)))))

/-- C10: HttpResponse.badRequest paramName always returns statusCode 400 with
    a MissingParamError for that name as the body, so no other error kind (in
    particular InvalidParamError) can appear in a response built through this
    helper. -/
theorem c10_badRequest_always_missingParam (paramName : String) :
    HttpResponse.badRequest paramName =
      { statusCode := 400, body := some (HttpBody.err (JsError.missingParam paramName)) } ∧
    bodyIsMissingParam (HttpResponse.badRequest paramName) = true :=
  ⟨rfl, rfl⟩

/-- C7 counterexample: the source helper HttpResponse.serverError builds a
    response with no body field at all, refuting the claim that every response
    produced by the HttpResponse helper constructors has a body. -/
theorem c7_counterexample_serverError_has_no_body :
    (HttpResponse.serverError).body = none :=
  rfl

/-- C7 amended: every response produced by LoginRouter.route has a statusCode
    and a body, on 200 the body carries the access token and otherwise it
    carries an error value (which exposes a message), and HttpResponse.badRequest
    also always carries a body; HttpResponse.serverError however carries only
    statusCode 500 and no body. -/
theorem c7_response_shape :
    (∀ (r : LoginRouter) (req : Option HttpRequest),
        (r.route req).body.isSome = true ∧
        ((r.route req).statusCode = 200 →
          ∃ t, (r.route req).body = some (HttpBody.token t)) ∧
        ((r.route req).statusCode ≠ 200 →
          ∃ e, (r.route req).body = some (HttpBody.err e))) ∧
    (∀ paramName, (HttpResponse.badRequest paramName).body.isSome = true) ∧
    (HttpResponse.serverError).body = none := by
  refine ⟨?_, fun _ => rfl, rfl⟩
  intro r req
  rcases LoginRouter.route_cases r req with h | h | h | h | h | ⟨t, _, h⟩ <;>
    rw [h] <;>
    simp [serverErrorResponse, HttpResponse.badRequest, invalidParamResponse,
      unauthorizedResponse, okResponse]

/-- C7 witness: the amended theorem applied to the makeSut router of
    login-router.spec.js on the valid request, whose response is the 200 with
    the valid token, and to a 400 response. -/
theorem c7_witness :
    (∃ t, (lrSut.route (some validRequest)).body = some (HttpBody.token t)) ∧
    (∃ e, (lrSut.route none).body = some (HttpBody.err e)) :=
  ⟨(c7_response_shape.1 lrSut (some validRequest)).2.1 (by decide),
   (c7_response_shape.1 lrSut none).2.2 (by decide)⟩

/-- C5: a request whose body lacks the email field gets statusCode 400 with
    MissingParamError for email, and a request whose body has a (truthy) email
    but lacks the password field gets statusCode 400 with MissingParamError
    for password; both responses are built by the source helper
    HttpResponse.badRequest. -/
theorem c5_missing_param_responses (r : LoginRouter) (b : HttpRequestBody) :
    (b.email = none → r.route (some ⟨some b⟩) = HttpResponse.badRequest emailField) ∧
    (truthy b.email = true → b.password = none →
      r.route (some ⟨some b⟩) = HttpResponse.badRequest passwordField) := by
  constructor
  · intro h
    simp [LoginRouter.route, h]
  · intro h1 h2
    simp [LoginRouter.route, h1, h2]

/-- C5 witness: the makeSut router of login-router.spec.js answers the two
    requests of the first two router tests with the two 400 responses. -/
theorem c5_witness :
    lrSut.route (some ⟨some ⟨none, some anyPassword⟩⟩) = HttpResponse.badRequest emailField ∧
    lrSut.route (some ⟨some ⟨some anyEmail, none⟩⟩) = HttpResponse.badRequest passwordField :=
  ⟨(c5_missing_param_responses lrSut ⟨none, some anyPassword⟩).1 rfl,
   (c5_missing_param_responses lrSut ⟨some anyEmail, none⟩).2 (by decide) rfl⟩

/-- C6: when the body carries both fields and emailValidator.isValid returns
    false on the email, route answers statusCode 400 with InvalidParamError
    for email. -/
theorem c6_invalid_email_response
    (authFn : String → String → Except JsError (Option String))
    (isValidFn : String → Except JsError Bool) (email password : String)
    (he : truthy (some email) = true) (hp : truthy (some password) = true)
    (hv : isValidFn email = .ok false) :
    LoginRouter.route ⟨some ⟨some authFn⟩, some ⟨some isValidFn⟩⟩
      (some ⟨some ⟨some email, some password⟩⟩) = invalidParamResponse emailField := by
  simp [LoginRouter.route, he, hp, hv]

/-- C6 witness: the scenario of the invalid-email router test, with the
    validator double returning false. -/
theorem c6_witness :
    LoginRouter.route
      ⟨some ⟨some fun _ _ => .ok (some validToken)⟩, some ⟨some fun _ => .ok false⟩⟩
      (some ⟨some ⟨some invalidEmail, some anyPassword⟩⟩) =
    invalidParamResponse emailField :=
  c6_invalid_email_response (fun _ _ => .ok (some validToken)) (fun _ => .ok false)
    invalidEmail anyPassword (by decide) (by decide) rfl

/-- C2: route always terminates in a response with one of the four HTTP
    statuses of section 4.4, and an error thrown by authUseCase.auth or by
    emailValidator.isValid is converted into the 500 ServerError response
    rather than propagated. -/
theorem c2_route_seals_exceptions :
    (∀ (r : LoginRouter) (req : Option HttpRequest),
        (r.route req).statusCode = 200 ∨ (r.route req).statusCode = 400 ∨
        (r.route req).statusCode = 401 ∨ (r.route req).statusCode = 500) ∧
    (∀ (authFn : String → String → Except JsError (Option String))
        (isValidFn : String → Except JsError Bool) (email password : String)
        (err : JsError),
        truthy (some email) = true → truthy (some password) = true →
        isValidFn email = .error err →
        LoginRouter.route ⟨some ⟨some authFn⟩, some ⟨some isValidFn⟩⟩
          (some ⟨some ⟨some email, some password⟩⟩) = serverErrorResponse) ∧
    (∀ (authFn : String → String → Except JsError (Option String))
        (isValidFn : String → Except JsError Bool) (email password : String)
        (err : JsError),
        truthy (some email) = true → truthy (some password) = true →
        isValidFn email = .ok true → authFn email password = .error err →
        LoginRouter.route ⟨some ⟨some authFn⟩, some ⟨some isValidFn⟩⟩
          (some ⟨some ⟨some email, some password⟩⟩) = serverErrorResponse) := by
  refine ⟨?_, ?_, ?_⟩
  · intro r req
    rcases LoginRouter.route_cases r req with h | h | h | h | h | ⟨t, _, h⟩ <;>
      rw [h] <;>
      simp [serverErrorResponse, HttpResponse.badRequest, invalidParamResponse,
        unauthorizedResponse, okResponse]
  · intro authFn isValidFn email password err he hp hv
    simp [LoginRouter.route, he, hp, hv]
  · intro authFn isValidFn email password err he hp hv ha
    simp [LoginRouter.route, he, hp, hv, ha]

/-- C2 witness: the two throwing test doubles of login-router.spec.js (the
    use case that throws and the validator that throws) both produce the 500
    ServerError response. -/
theorem c2_witness :
    LoginRouter.route
      ⟨some ⟨some fun _ _ => .error .generic⟩, some ⟨some isValidTrueFn⟩⟩
      (some ⟨some ⟨some invalidEmail, some invalidPassword⟩⟩) = serverErrorResponse ∧
    LoginRouter.route
      ⟨some ⟨some fun _ _ => .ok (some validToken)⟩, some ⟨some fun _ => .error .generic⟩⟩
      (some ⟨some ⟨some invalidEmail, some invalidPassword⟩⟩) = serverErrorResponse :=
  ⟨c2_route_seals_exceptions.2.2 (fun _ _ => .error .generic) isValidTrueFn
      invalidEmail invalidPassword .generic (by decide) (by decide) rfl rfl,
   c2_route_seals_exceptions.2.1 (fun _ _ => .ok (some validToken)) (fun _ => .error .generic)
      invalidEmail invalidPassword .generic (by decide) (by decide) rfl⟩

/-- C3: when the repository finds no user, auth resolves null; when a user is
    found but the comparison is false, auth resolves null as well; in both
    cases route answers 401 UnauthorizedError, and the two responses are
    identical, so the caller cannot distinguish the two causes. -/
theorem c3_null_indistinguishable
    (loadFn1 : String → Except JsError (Option User))
    (enc1 : Option Encrypter) (tg1 : Option TokenGenerator)
    (ur1 : Option UpdateAccessTokenRepository)
    (loadFn2 : String → Except JsError (Option User))
    (compareFn2 : String → String → Except JsError Bool)
    (tg2 : Option TokenGenerator) (ur2 : Option UpdateAccessTokenRepository)
    (isValidFn : String → Except JsError Bool)
    (email password : String) (user : User)
    (he : truthy (some email) = true) (hp : truthy (some password) = true)
    (hv : isValidFn email = .ok true)
    (h1 : loadFn1 email = .ok none)
    (h2 : loadFn2 email = .ok (some user))
    (h3 : compareFn2 password user.password = .ok false) :
    (AuthUseCase.auth ⟨some ⟨some loadFn1⟩, enc1, tg1, ur1⟩
        (some email) (some password)).2 = .ok none ∧
    (AuthUseCase.auth ⟨some ⟨some loadFn2⟩, some ⟨some compareFn2⟩, tg2, ur2⟩
        (some email) (some password)).2 = .ok none ∧
    LoginRouter.route
        ⟨some (AuthUseCase.asAuthUseCaseI ⟨some ⟨some loadFn1⟩, enc1, tg1, ur1⟩),
          some ⟨some isValidFn⟩⟩
        (some ⟨some ⟨some email, some password⟩⟩) = unauthorizedResponse ∧
    LoginRouter.route
        ⟨some (AuthUseCase.asAuthUseCaseI
            ⟨some ⟨some loadFn2⟩, some ⟨some compareFn2⟩, tg2, ur2⟩),
          some ⟨some isValidFn⟩⟩
        (some ⟨some ⟨some email, some password⟩⟩) =
      LoginRouter.route
        ⟨some (AuthUseCase.asAuthUseCaseI ⟨some ⟨some loadFn1⟩, enc1, tg1, ur1⟩),
          some ⟨some isValidFn⟩⟩
        (some ⟨some ⟨some email, some password⟩⟩) := by
  have ha1 : (AuthUseCase.auth ⟨some ⟨some loadFn1⟩, enc1, tg1, ur1⟩
      (some email) (some password)).2 = .ok none := by
    simp [AuthUseCase.auth, he, hp, h1]
  have ha2 : (AuthUseCase.auth ⟨some ⟨some loadFn2⟩, some ⟨some compareFn2⟩, tg2, ur2⟩
      (some email) (some password)).2 = .ok none := by
    simp [AuthUseCase.auth, he, hp, h2, h3]
  have hr1 : LoginRouter.route
      ⟨some (AuthUseCase.asAuthUseCaseI ⟨some ⟨some loadFn1⟩, enc1, tg1, ur1⟩),
        some ⟨some isValidFn⟩⟩
      (some ⟨some ⟨some email, some password⟩⟩) = unauthorizedResponse := by
    simp [LoginRouter.route, AuthUseCase.asAuthUseCaseI, he, hp, hv, ha1]
  have hr2 : LoginRouter.route
      ⟨some (AuthUseCase.asAuthUseCaseI
          ⟨some ⟨some loadFn2⟩, some ⟨some compareFn2⟩, tg2, ur2⟩),
        some ⟨some isValidFn⟩⟩
      (some ⟨some ⟨some email, some password⟩⟩) = unauthorizedResponse := by
    simp [LoginRouter.route, AuthUseCase.asAuthUseCaseI, he, hp, hv, ha2]
  exact ⟨ha1, ha2, hr1, hr2.trans hr1.symm⟩

/-- C3 witness: the not-found fixture and the wrong-password fixture of
    src/unnamed/part_000 both make auth resolve null and the router answer
    the same 401 response. -/
theorem c3_witness :
    (authNotFound.auth (some invalidEmail) (some anyPassword)).2 = .ok none ∧
    (authWrongPassword.auth (some invalidEmail) (some anyPassword)).2 = .ok none ∧
    LoginRouter.route ⟨some authNotFound.asAuthUseCaseI, some ⟨some isValidTrueFn⟩⟩
        (some ⟨some ⟨some invalidEmail, some anyPassword⟩⟩) = unauthorizedResponse ∧
    LoginRouter.route ⟨some authWrongPassword.asAuthUseCaseI, some ⟨some isValidTrueFn⟩⟩
        (some ⟨some ⟨some invalidEmail, some anyPassword⟩⟩) =
      LoginRouter.route ⟨some authNotFound.asAuthUseCaseI, some ⟨some isValidTrueFn⟩⟩
        (some ⟨some ⟨some invalidEmail, some anyPassword⟩⟩) :=
  c3_null_indistinguishable loadNotFoundFn (some encrypterSpy) (some tokenGeneratorSpy) none
    loadSpyFn compareFalseFn (some tokenGeneratorSpy) none isValidTrueFn
    invalidEmail anyPassword anyUser (by decide) (by decide) rfl rfl rfl rfl

/-- C4: a missing or method-less collaborator makes the operation fail with
    the generic server error: the router answers 500 ServerError when either
    of its two collaborators fails the dependency guard, and auth rejects
    with the generic error when the collaborator it is about to invoke fails
    the guard (load repository, encrypter, token generator, update-token
    repository), never surfacing a raw type-confusion failure. -/
theorem c4_dependency_guard :
    (∀ (r : LoginRouter) (b : HttpRequestBody),
        truthy b.email = true → truthy b.password = true →
        (authUseCaseDepOk r.authUseCase = false ∨
          emailValidatorDepOk r.emailValidator = false) →
        r.route (some ⟨some b⟩) = serverErrorResponse) ∧
    (∀ (a : AuthUseCase) (email password : Option String),
        truthy email = true → truthy password = true →
        loadRepoDepOk a.loadUserByEmailRepository = false →
        (a.auth email password).2 = .error .server) ∧
    (∀ (loadFn : String → Except JsError (Option User)) (enc : Option Encrypter)
        (tg : Option TokenGenerator) (ur : Option UpdateAccessTokenRepository)
        (email password : String) (user : User),
        truthy (some email) = true → truthy (some password) = true →
        loadFn email = .ok (some user) →
        encrypterDepOk enc = false →
        (AuthUseCase.auth ⟨some ⟨some loadFn⟩, enc, tg, ur⟩
          (some email) (some password)).2 = .error .server) ∧
    (∀ (loadFn : String → Except JsError (Option User))
        (compareFn : String → String → Except JsError Bool)
        (tg : Option TokenGenerator) (ur : Option UpdateAccessTokenRepository)
        (email password : String) (user : User),
        truthy (some email) = true → truthy (some password) = true →
        loadFn email = .ok (some user) →
        compareFn password user.password = .ok true →
        tokenGeneratorDepOk tg = false →
        (AuthUseCase.auth ⟨some ⟨some loadFn⟩, some ⟨some compareFn⟩, tg, ur⟩
          (some email) (some password)).2 = .error .server) ∧
    (∀ (loadFn : String → Except JsError (Option User))
        (compareFn : String → String → Except JsError Bool)
        (generateFn : String → Except JsError String)
        (ur : Option UpdateAccessTokenRepository)
        (email password accessToken : String) (user : User),
        truthy (some email) = true → truthy (some password) = true →
        loadFn email = .ok (some user) →
        compareFn password user.password = .ok true →
        generateFn user.id = .ok accessToken →
        updateRepoDepOk ur = false →
        (AuthUseCase.auth ⟨some ⟨some loadFn⟩, some ⟨some compareFn⟩,
            some ⟨some generateFn⟩, ur⟩
          (some email) (some password)).2 = .error .server) := by
  refine ⟨?_, ?_, ?_, ?_, ?_⟩
  · intro r b he hp hdep
    rcases hA : r.authUseCase with _ | au
    · simp [LoginRouter.route, he, hp, hA]
    rcases hE : r.emailValidator with _ | ev
    · simp [LoginRouter.route, he, hp, hA, hE]
    rcases hf : au.auth with _ | f
    · simp [LoginRouter.route, he, hp, hA, hE, hf]
    rcases hg : ev.isValid with _ | g
    · simp [LoginRouter.route, he, hp, hA, hE, hf, hg]
    rw [hA, hE] at hdep
    simp [authUseCaseDepOk, emailValidatorDepOk, hf, hg] at hdep
  · intro a email password he hp hdep
    rcases hL : a.loadUserByEmailRepository with _ | repo
    · simp [AuthUseCase.auth, he, hp, hL]
    rcases hl : repo.load with _ | loadFn
    · simp [AuthUseCase.auth, he, hp, hL, hl]
    rw [hL] at hdep
    simp [loadRepoDepOk, hl] at hdep
  · intro loadFn enc tg ur email password user he hp hl hdep
    rcases hEc : enc with _ | e
    · simp [AuthUseCase.auth, he, hp, hl]
    rcases hc : e.compare with _ | compareFn
    · simp [AuthUseCase.auth, he, hp, hl, hc]
    rw [hEc] at hdep
    simp [encrypterDepOk, hc] at hdep
  · intro loadFn compareFn tg ur email password user he hp hl hc hdep
    rcases hT : tg with _ | t
    · simp [AuthUseCase.auth, he, hp, hl, hc]
    rcases ht : t.generate with _ | generateFn
    · simp [AuthUseCase.auth, he, hp, hl, hc, ht]
    rw [hT] at hdep
    simp [tokenGeneratorDepOk, ht] at hdep
  · intro loadFn compareFn generateFn ur email password accessToken user he hp hl hc hg hdep
    rcases hU : ur with _ | u
    · simp [AuthUseCase.auth, he, hp, hl, hc, hg]
    rcases hu : u.update with _ | updateFn
    · simp [AuthUseCase.auth, he, hp, hl, hc, hg, hu]
    rw [hU] at hdep
    simp [updateRepoDepOk, hu] at hdep

/-- C4 witness: the concrete malformed-wiring scenarios of the repository
    tests: a router with no collaborators answers 500, and the use case with
    a missing collaborator at each of its four guard points rejects with the
    generic error. -/
theorem c4_witness :
    LoginRouter.route ⟨none, none⟩
      (some ⟨some ⟨some invalidEmail, some invalidPassword⟩⟩) = serverErrorResponse ∧
    (AuthUseCase.auth ⟨none, none, none, none⟩
      (some anyEmail) (some anyPassword)).2 = .error .server ∧
    (AuthUseCase.auth ⟨some ⟨some loadSpyFn⟩, none, none, none⟩
      (some anyEmail) (some anyPassword)).2 = .error .server ∧
    (AuthUseCase.auth ⟨some ⟨some loadSpyFn⟩, some ⟨some compareSpyFn⟩, none, none⟩
      (some anyEmail) (some anyPassword)).2 = .error .server ∧
    (AuthUseCase.auth ⟨some ⟨some loadSpyFn⟩, some ⟨some compareSpyFn⟩,
        some ⟨some generateSpyFn⟩, none⟩
      (some anyEmail) (some anyPassword)).2 = .error .server :=
  ⟨c4_dependency_guard.1 ⟨none, none⟩ ⟨some invalidEmail, some invalidPassword⟩
      (by decide) (by decide) (Or.inl rfl),
   c4_dependency_guard.2.1 ⟨none, none, none, none⟩ (some anyEmail) (some anyPassword)
      (by decide) (by decide) rfl,
   c4_dependency_guard.2.2.1 loadSpyFn none none none anyEmail anyPassword anyUser
      (by decide) (by decide) rfl rfl,
   c4_dependency_guard.2.2.2.1 loadSpyFn compareSpyFn none none anyEmail anyPassword anyUser
      (by decide) (by decide) rfl rfl rfl,
   c4_dependency_guard.2.2.2.2 loadSpyFn compareSpyFn generateSpyFn none
      anyEmail anyPassword anyToken anyUser
      (by decide) (by decide) rfl rfl rfl rfl⟩

/-- C8: auth checks email first (rejecting with MissingParamError for email
    without invoking any collaborator, whatever the password), then password
    (rejecting with MissingParamError for password), and once both checks pass
    a call whose collaborators are all present and resolving yields either an
    access token or null. -/
theorem c8_auth_precondition_order :
    (∀ (a : AuthUseCase) (email password : Option String),
        truthy email = false →
        a.auth email password = ([], .error (.missingParam emailField))) ∧
    (∀ (a : AuthUseCase) (email password : Option String),
        truthy email = true → truthy password = false →
        a.auth email password = ([], .error (.missingParam passwordField))) ∧
    (∀ (loadFn : String → Except JsError (Option User))
        (compareFn : String → String → Except JsError Bool)
        (generateFn : String → Except JsError String)
        (updateFn : String → String → Except JsError Unit)
        (email password : String),
        truthy (some email) = true → truthy (some password) = true →
        (∀ x, ∃ u, loadFn x = .ok u) →
        (∀ x y, ∃ b, compareFn x y = .ok b) →
        (∀ x, ∃ t, generateFn x = .ok t) →
        (∀ x y, updateFn x y = .ok ()) →
        ∃ res, ((mkAuthUseCase loadFn compareFn generateFn updateFn).auth
          (some email) (some password)).2 = .ok res) := by
  refine ⟨?_, ?_, ?_⟩
  · intro a email password he
    simp [AuthUseCase.auth, he]
  · intro a email password he hp
    simp [AuthUseCase.auth, he, hp]
  · intro loadFn compareFn generateFn updateFn email password he hp hl hc hg hu
    obtain ⟨u, hl1⟩ := hl email
    cases u with
    | none => exact ⟨none, by simp [AuthUseCase.auth, mkAuthUseCase, he, hp, hl1]⟩
    | some user =>
      obtain ⟨b, hc1⟩ := hc password user.password
      cases b with
      | false =>
        exact ⟨none, by simp [AuthUseCase.auth, mkAuthUseCase, he, hp, hl1, hc1]⟩
      | true =>
        obtain ⟨t, hg1⟩ := hg user.id
        exact ⟨some t,
          by simp [AuthUseCase.auth, mkAuthUseCase, he, hp, hl1, hc1, hg1, hu user.id t]⟩

/-- C8 witness: the missing-email and missing-password calls of
    src/unnamed/part_000 reject with the corresponding MissingParamError, and
    the fully wired use case resolves. -/
theorem c8_witness :
    makeSutAuth.auth none none = ([], .error (.missingParam emailField)) ∧
    makeSutAuth.auth (some anyEmail) none = ([], .error (.missingParam passwordField)) ∧
    ∃ res, ((mkAuthUseCase loadSpyFn compareSpyFn generateSpyFn updateOkFn).auth
      (some anyEmail) (some anyPassword)).2 = .ok res :=
  ⟨c8_auth_precondition_order.1 makeSutAuth none none rfl,
   c8_auth_precondition_order.2.1 makeSutAuth (some anyEmail) none (by decide) rfl,
   c8_auth_precondition_order.2.2 loadSpyFn compareSpyFn generateSpyFn updateOkFn
      anyEmail anyPassword (by decide) (by decide)
      (fun x => ⟨some anyUser, rfl⟩) (fun x y => ⟨true, rfl⟩)
      (fun x => ⟨anyToken, rfl⟩) (fun x y => rfl)⟩

/-- C1 counterexample: on the repository's own fixture (makeSut of
    src/unnamed/part_000, which constructs AuthUseCase without an
    updateAccessTokenRepository) the credentials are valid (the repository
    double finds the user and the encrypter double compares true), yet auth
    rejects at the update guard and the router answers 500, not 200, so the
    claim as stated fails at this concrete input. -/
theorem c1_counterexample :
    loadSpyFn validEmail = .ok (some anyUser) ∧
    compareSpyFn validPassword anyUser.password = .ok true ∧
    (makeSutAuth.auth (some validEmail) (some validPassword)).2 = .error .server ∧
    (LoginRouter.route ⟨some makeSutAuth.asAuthUseCaseI, some emailValidatorSpy⟩
        (some validRequest)).statusCode = 500 :=
  ⟨rfl, rfl, rfl, rfl⟩

/-- C1 amended: when all four AuthUseCase collaborators are provided and
    behave (load finds the user, compare is true, generate yields the token,
    update resolves), auth records the update invocation with the user id and
    the generated token and resolves that token, and route answers 200 with
    the token as body. -/
theorem c1_valid_credentials
    (loadFn : String → Except JsError (Option User))
    (compareFn : String → String → Except JsError Bool)
    (generateFn : String → Except JsError String)
    (updateFn : String → String → Except JsError Unit)
    (isValidFn : String → Except JsError Bool)
    (email password accessToken : String) (user : User)
    (he : truthy (some email) = true) (hp : truthy (some password) = true)
    (hv : isValidFn email = .ok true)
    (hl : loadFn email = .ok (some user))
    (hc : compareFn password user.password = .ok true)
    (hg : generateFn user.id = .ok accessToken)
    (hu : updateFn user.id accessToken = .ok ())
    (ht : accessToken.isEmpty = false) :
    (mkAuthUseCase loadFn compareFn generateFn updateFn).auth
        (some email) (some password) =
      ([CallEvent.load email, CallEvent.compare password user.password,
        CallEvent.generate user.id, CallEvent.update user.id accessToken],
        .ok (some accessToken)) ∧
    LoginRouter.route
        ⟨some (mkAuthUseCase loadFn compareFn generateFn updateFn).asAuthUseCaseI,
          some ⟨some isValidFn⟩⟩
        (some ⟨some ⟨some email, some password⟩⟩) = okResponse accessToken := by
  have hauth : (mkAuthUseCase loadFn compareFn generateFn updateFn).auth
      (some email) (some password) =
    ([CallEvent.load email, CallEvent.compare password user.password,
      CallEvent.generate user.id, CallEvent.update user.id accessToken],
      .ok (some accessToken)) := by
    simp [AuthUseCase.auth, mkAuthUseCase, he, hp, hl, hc, hg, hu]
  refine ⟨hauth, ?_⟩
  simp [LoginRouter.route, AuthUseCase.asAuthUseCaseI, he, hp, hv, hauth, ht]

/-- C1 witness: the fully wired scenario of spec section 8 (the fixture user,
    compare true, token any_token, update resolving) yields the recorded
    update call and the 200 response carrying any_token. -/
theorem c1_witness :
    (mkAuthUseCase loadSpyFn compareSpyFn generateSpyFn updateOkFn).auth
        (some validEmail) (some validPassword) =
      ([CallEvent.load validEmail, CallEvent.compare validPassword anyUser.password,
        CallEvent.generate anyUser.id, CallEvent.update anyUser.id anyToken],
        .ok (some anyToken)) ∧
    LoginRouter.route
        ⟨some (mkAuthUseCase loadSpyFn compareSpyFn generateSpyFn updateOkFn).asAuthUseCaseI,
          some ⟨some isValidTrueFn⟩⟩
        (some ⟨some ⟨some validEmail, some validPassword⟩⟩) = okResponse anyToken :=
  c1_valid_credentials loadSpyFn compareSpyFn generateSpyFn updateOkFn isValidTrueFn
    validEmail validPassword anyToken anyUser
    (by decide) (by decide) rfl rfl rfl rfl rfl (by decide)

/-- Whenever both stateful collaborator calls return values independent of
    the mutable spy state they receive, the response of the stateful route is
    independent of the starting state. -/
theorem StLoginRouter.route_state_indep {σ : Type} (r : StLoginRouter σ)
    (hAuth : ∀ au f, r.authUseCase = some au → au.auth = some f → stateIndep2 f)
    (hValid : ∀ ev g, r.emailValidator = some ev → ev.isValid = some g → stateIndep1 g)
    (s t : σ) (req : Option HttpRequest) :
    (r.route s req).1 = (r.route t req).1 := by
  cases req with
  | none => rfl
  | some hr =>
    rcases hr with ⟨bodyOpt⟩
    cases bodyOpt with
    | none => rfl
    | some b =>
      by_cases he : truthy b.email = true
      case neg =>
        simp only [Bool.not_eq_true] at he
        simp [StLoginRouter.route, he]
      case pos =>
      by_cases hp : truthy b.password = true
      case neg =>
        simp only [Bool.not_eq_true] at hp
        simp [StLoginRouter.route, he, hp]
      case pos =>
      rcases hA : r.authUseCase with _ | au
      · simp [StLoginRouter.route, he, hp, hA]
      rcases hE : r.emailValidator with _ | ev
      · simp [StLoginRouter.route, he, hp, hA, hE]
      rcases hf : au.auth with _ | f
      · simp [StLoginRouter.route, he, hp, hA, hE, hf]
      rcases hg : ev.isValid with _ | g
      · simp [StLoginRouter.route, he, hp, hA, hE, hf, hg]
      have hgst := hValid ev g hE hg s t (b.email.getD (""))
      rcases h1 : g s (b.email.getD ("")) with ⟨v1, s1⟩
      rcases h2 : g t (b.email.getD ("")) with ⟨v2, t1⟩
      rw [h1, h2] at hgst
      simp only at hgst
      subst hgst
      have hfst := hAuth au f hA hf s1 t1 (b.email.getD ("")) (b.password.getD (""))
      rcases h3 : f s1 (b.email.getD ("")) (b.password.getD ("")) with ⟨w1, s2⟩
      rcases h4 : f t1 (b.email.getD ("")) (b.password.getD ("")) with ⟨w2, t2⟩
      rw [h3, h4] at hfst
      simp only at hfst
      subst hfst
      simp only [StLoginRouter.route, he, hp, hA, hE, hf, hg, h1, h2]
      cases v1 with
      | error err => rfl
      | ok bv =>
        cases bv with
        | false => rfl
        | true =>
          simp only [h3, h4]
          cases w1 with
          | error err => rfl
          | ok tok =>
            cases tok with
            | none => rfl
            | some accessToken =>
              cases hI : accessToken.isEmpty <;> simp [hI]

/-- C9: two-run determinism of route: with deterministic collaborators (their
    returned values do not depend on the mutated spy state), running route a
    second time on the same request, starting from the state the first run
    left behind, yields the same status code. -/
theorem c9_route_two_run_determinism {σ : Type} (r : StLoginRouter σ)
    (hAuth : ∀ au f, r.authUseCase = some au → au.auth = some f → stateIndep2 f)
    (hValid : ∀ ev g, r.emailValidator = some ev → ev.isValid = some g → stateIndep1 g)
    (s : σ) (req : Option HttpRequest) :
    ((r.route s req).1).statusCode = ((r.route ((r.route s req).2) req).1).statusCode :=
  congrArg HttpResponse.statusCode
    (StLoginRouter.route_state_indep r hAuth hValid s ((r.route s req).2) req)

/-- C9 witness: the stateful makeSut doubles of login-router.spec.js (which
    record email and password on every call but always return the fixed
    values) give the same status code on both runs of the valid request. -/
theorem c9_witness :
    ((stLrSut.route spyRecord0 (some validRequest)).1).statusCode =
      ((stLrSut.route ((stLrSut.route spyRecord0 (some validRequest)).2)
          (some validRequest)).1).statusCode :=
  c9_route_two_run_determinism stLrSut
    (by
      intro au f h1 h2 s t e p
      have h1a : (⟨some stAuthSpyFn⟩ : StAuthUseCaseI SpyRecord) = au := Option.some.inj h1
      subst h1a
      have h2a : stAuthSpyFn = f := Option.some.inj h2
      subst h2a
      rfl)
    (by
      intro ev g h1 h2 s t e
      have h1a : (⟨some stValidSpyFn⟩ : StEmailValidator SpyRecord) = ev := Option.some.inj h1
      subst h1a
      have h2a : stValidSpyFn = g := Option.some.inj h2
      subst h2a
      rfl)
    spyRecord0 (some validRequest)

end CleanAuth
